import Mathlib

/-!
Verification development for the project-workflow orchestration engine of
`app.py` / `workflow/graph.py` (Flask web application driving an Oracle APEX
development pipeline).

Shallow embedding notes:
* Python dicts are modelled as association lists in insertion order
  (`dictSet` overwrites in place, `dictGet` finds the first binding), which
  matches CPython dict semantics for the operations used by the source.
* Timestamps (`datetime.now()`) are abstracted as `Nat` ticks passed in by the
  caller; no claim depends on their values, only on the presence or absence of
  `completed_at`.
* Python's `int(x)` applied to a non-negative float is truncation towards
  zero.  The progress expression `(len(completed_steps) / 7) * 100` is
  evaluated by the source in IEEE-754 double precision; for every reachable
  operand (`0 ≤ k ≤ 7`) double evaluation and exact rational evaluation
  truncate to the same integer (the value is at distance ≥ 1/7 from the next
  integer except when it is exactly an integer, which the doubles represent
  exactly), so the embedding uses exact `ℚ` arithmetic with a floor.
-/

/-- Python dict membership test `k in d` (on keys). -/
def dictContains {α : Type} (d : List (String × α)) (k : String) : Bool :=
  d.any (fun kv => kv.1 = k)

/-- Python dict assignment `d[k] = v`: overwrite in place if the key exists
(keeping its position, as CPython does), otherwise append. -/
def dictSet {α : Type} (d : List (String × α)) (k : String) (v : α) :
    List (String × α) :=
  match d with
  | [] => [(k, v)]
  | kv :: rest => if kv.1 = k then (k, v) :: rest else kv :: dictSet rest k v

/-- Python dict lookup `d.get(k)` returning `None` when absent. -/
def dictGet {α : Type} (d : List (String × α)) (k : String) : Option α :=
  (d.find? (fun kv => kv.1 = k)).map (·.2)

/-- Python truthiness of an optional string: `None` and `""` are falsy
(`if not requirements: ...`). -/
def pyFalsy : Option String → Bool
  | none => true
  | some s => s.isEmpty

/-- Python `int(q)` for a rational: truncation towards zero. All values the
source feeds to `int` are non-negative, where truncation is the floor. -/
def pyInt (q : ℚ) : ℤ :=
  if 0 ≤ q then ⌊q⌋ else -⌊-q⌋

/-- One entry of `ProjectState.messages` (`app.py`, `add_message`):
`{"sender": ..., "content": ..., "timestamp": ...}`. -/
structure Message where
  sender : String
  content : String
  timestamp : Nat
  deriving Repr, DecidableEq

/-- One value of `ProjectState.artifacts` (`app.py`, `add_artifact`):
`{"content": ..., "type": ..., "created_by": ..., "timestamp": ...}`. -/
structure Artifact where
  content : String
  type : String
  created_by : String
  timestamp : Nat
  deriving Repr, DecidableEq

/-- `class ProjectState` of `app.py` (fields set in `__init__`). -/
structure ProjectState where
  project_id : String
  requirements : String
  current_agent : Option String
  status : String
  started_at : Nat
  completed_at : Option Nat
  messages : List Message
  artifacts : List (String × Artifact)
  result : Option String
  deriving Repr, DecidableEq

namespace ProjectState

/-- `ProjectState.__init__(project_id, requirements)`. -/
def init (project_id requirements : String) (now : Nat) : ProjectState :=
  { project_id := project_id
    requirements := requirements
    current_agent := none
    status := "initializing"
    started_at := now
    completed_at := none
    messages := []
    artifacts := []
    result := none }

/-- `ProjectState.add_message(sender, content)` — appends to the log. -/
def add_message (p : ProjectState) (sender content : String) (now : Nat) :
    ProjectState :=
  { p with messages := p.messages ++ [⟨sender, content, now⟩] }

/-- `ProjectState.add_artifact(name, content, artifact_type, agent)` — a bare
dict assignment `self.artifacts[name] = {...}`: it overwrites any existing
entry under `name` and returns `None` (no boolean). -/
def add_artifact (p : ProjectState) (name content artifact_type agent : String)
    (now : Nat) : ProjectState :=
  { p with artifacts :=
      dictSet p.artifacts name ⟨content, artifact_type, agent, now⟩ }

/-- `ProjectState.update_status(status)`: sets the status string and stamps
`completed_at` exactly when the new status is the literal `"completed"`. -/
def update_status (p : ProjectState) (status : String) (now : Nat) :
    ProjectState :=
  { p with
    status := status
    completed_at := if status = "completed" then some now else p.completed_at }

end ProjectState

/-- `@dataclass WorkflowState` of `workflow/graph.py`.  The `Dict[str, Any]`
artifact fields are never populated by `run_workflow`, so their value type is
abstracted as `String`. -/
structure WorkflowState where
  project_id : String
  requirements : String
  business_requirements_doc : List (String × String)
  database_design : List (String × String)
  database_scripts : List (String × String)
  apex_application : List (String × String)
  frontend_assets : List (String × String)
  test_results : List (String × String)
  current_phase : String
  errors : List String
  completed_phases : List String
  deriving Repr, DecidableEq

/-- The local `steps` list of `run_workflow` in `workflow/graph.py`. -/
def graphSteps : List String :=
  ["business_analysis", "database_design", "database_implementation",
   "apex_development", "frontend_enhancement", "testing",
   "project_completion"]

/-- `run_workflow(workflow, requirements)` of `workflow/graph.py`.  The
`workflow` argument is ignored by the body.  The freshly generated
`uuid.uuid4()` project id is abstracted as an opaque constant — nothing in the
program observes it.  The loop body (set `current_phase`, append to
`completed_phases`, `print`) cannot raise, so the `except` branch of the
source is unreachable and the function is total; it returns ONE
`WorkflowState`, not a stream. -/
def run_workflow (_workflow requirements : String) : WorkflowState :=
  let state : WorkflowState :=
    { project_id := "uuid4"
      requirements := requirements
      business_requirements_doc := []
      database_design := []
      database_scripts := []
      apex_application := []
      frontend_assets := []
      test_results := []
      current_phase := "initialization"
      errors := []
      completed_phases := [] }
  graphSteps.foldl
    (fun st step =>
      { st with
        current_phase := step
        completed_phases := st.completed_phases ++ [step] })
    state

/-- The `workflow_steps` list local to `run_project_workflow` in `app.py`
(note: it names the sixth phase `qa_testing`, unlike `graph.py`; only its
length is ever used). -/
def workflow_steps : List String :=
  ["business_analysis", "database_design", "database_implementation",
   "apex_development", "frontend_enhancement", "qa_testing",
   "project_completion"]

/-- Shape of a message inside a yielded step's state, as the loop body of
`run_project_workflow` reads it (`msg.type`, `msg.content`). -/
structure StepMsg where
  type : String
  content : String
  deriving Repr, DecidableEq

/-- Shape of an artifact value inside a yielded step's state, as the loop body
reads it (`artifact.get("content", "")`, `.get("type", "")`,
`.get("created_by", "")`). -/
structure StepArtifact where
  content : String
  type : String
  created_by : String
  deriving Repr, DecidableEq

/-- The dictionary `step.state` that the loop body of `run_project_workflow`
expects each iteration of `run_workflow(...)` to yield, with defaults already
applied (`state.get("current_agent", "")` etc.). -/
structure StepState where
  current_agent : String
  messages : List StepMsg
  artifacts : List (String × StepArtifact)
  completed_steps : List String
  deriving Repr, DecidableEq

/-- The progress expression of `app.py` line 112:
`(len(completed_steps) / len(workflow_steps)) * 100` truncated by `int(...)`
(see the header note on the float/rational correspondence). -/
def progressPercent (k total : Nat) : ℤ :=
  pyInt ((k : ℚ) / (total : ℚ) * 100)

/-- The artifact-merging inner loop of `run_project_workflow`
(`app.py` lines 99–107): for each `(name, artifact)` of the step state, add it
only `if name not in project.artifacts` — first writer wins. -/
def merge_artifacts (p : ProjectState) (arts : List (String × StepArtifact))
    (now : Nat) : ProjectState :=
  arts.foldl
    (fun acc a =>
      if dictContains acc.artifacts a.1 then acc
      else acc.add_artifact a.1 a.2.content a.2.type a.2.created_by now)
    p

/-- One iteration of the `for step in run_workflow(...)` loop body of
`run_project_workflow` (`app.py` lines 84–114): update `current_agent`,
append the step's new messages, merge its artifacts first-writer-wins, and if
it reports completed steps publish the progress status string. -/
def processStep (p : ProjectState) (st : StepState) (now : Nat) :
    ProjectState :=
  let p := { p with current_agent := some st.current_agent }
  let p :=
    if 0 < st.messages.length ∧ p.messages.length < st.messages.length then
      (st.messages.drop p.messages.length).foldl
        (fun acc msg =>
          acc.add_message
            (if msg.type = "human" then "User" else st.current_agent)
            msg.content now)
        p
    else p
  let p := merge_artifacts p st.artifacts now
  if 0 < st.completed_steps.length then
    let progress := progressPercent st.completed_steps.length
      workflow_steps.length
    p.update_status ("In progress - " ++ toString progress ++ "% complete") now
  else p

/-- The whole `for` loop of `run_project_workflow` over a list of yielded
step states. -/
def processSteps (p : ProjectState) (sts : List StepState) (now : Nat) :
    ProjectState :=
  sts.foldl (fun acc st => processStep acc st now) p

/-- The `except Exception as e` handler of `run_project_workflow`
(`app.py` lines 119–121): append one system message with the failure
description and set the status to the literal string `"error"`.  The handler
itself raises nothing, so no exception escapes the background thread. -/
def workflow_error_handler (p : ProjectState) (e : String) (now : Nat) :
    ProjectState :=
  (p.add_message "System" ("Error: " ++ e) now).update_status "error" now

/-- Semantics of the statement `for step in run_workflow(...)` in `app.py`
line 83.  Python evaluates `iter(obj)` on the value of `run_workflow(...)`;
that value is a `WorkflowState`, a plain `@dataclass` defining neither
`__iter__` nor `__getitem__`, so CPython raises
`TypeError: 'WorkflowState' object is not iterable` for every instance, and
control transfers to the `except` handler.  (Were the value iterable, the
loop body would consume step objects — the `Except.ok` shape.) -/
def iterWorkflowState (_ws : WorkflowState) :
    Except String (List StepState) :=
  Except.error "'WorkflowState' object is not iterable"

/-- `run_project_workflow(project_id)` of `app.py`, acting on the project's
`ProjectState`: set status `"running"`, iterate over `run_workflow(...)`
processing each yielded step, then record the final result and status
`"completed"`; any exception in the `try` block is turned into one system
message and status `"error"` by the handler. -/
def run_project_workflow (p : ProjectState) (now : Nat) : ProjectState :=
  let p1 := p.update_status "running" now
  match iterWorkflowState (run_workflow p.project_id p.requirements) with
  | Except.ok sts =>
    let p2 := processSteps p1 sts now
    let p3 := { p2 with result := some "Project completed successfully." }
    p3.update_status "completed" now
  | Except.error e => workflow_error_handler p1 e now

/-- The whole in-memory registry `active_projects` of `app.py`: a module-level
Python dict mapping project id to `ProjectState`. -/
abbrev Registry := List (String × ProjectState)

/-- Outcome of the `start_project` endpoint: the registry after the call, the
HTTP response (error body with code, or the JSON success payload abstracted to
the returned `project_id`), and whether a background thread was started. -/
structure StartOutcome where
  active_projects : Registry
  response : Except (String × Nat) String
  thread_started : Bool
  deriving Repr

/-- `start_project` (`app.py` lines 140–170).  `req` is
`request.json.get('requirements')` (`none` when the key is absent); the guard
is Python truthiness `if not requirements`.  On the success path the code
stores the new `ProjectState` in `active_projects` under a freshly generated
`uuid.uuid4()` (modelled as the `project_id` parameter), appends the initial
system message to that same object, and starts the workflow thread.  There is
no duplicate-id check: the dict assignment overwrites any existing entry. -/
def start_project (active : Registry) (req : Option String)
    (project_id : String) (now : Nat) : StartOutcome :=
  if pyFalsy req then
    { active_projects := active
      response := Except.error ("No requirements provided", 400)
      thread_started := false }
  else
    let project := (ProjectState.init project_id (req.getD "") now).add_message
      "System" "Project initialized. Starting business analysis phase..." now
    { active_projects := dictSet active project_id project
      response := Except.ok project_id
      thread_started := true }

/-- `project_messages` (`app.py` lines 190–208): look the project up, slice
`project.messages[last_id:]`, and answer with the new messages and
`last_id + len(new_messages)`.  `last_id` comes from
`request.args.get('last_id', 0, type=int)`; the claims quantify over
non-negative cursors, for which the Python slice is `List.drop`. -/
def project_messages (active : Registry) (pid : String) (last_id : Nat) :
    Except (String × Nat) (List Message × Nat) :=
  match dictGet active pid with
  | none => Except.error ("Project not found", 404)
  | some project =>
    let new_messages := project.messages.drop last_id
    Except.ok (new_messages, last_id + new_messages.length)

/-- `send_message` (`app.py` lines 210–234): after the truthiness and
existence checks it unconditionally appends a `"User"` message to the
project's log — there is no check of `project.status` — and changes nothing
else of the project. -/
def send_message (active : Registry) (project_id message : Option String)
    (now : Nat) : Registry × Except (String × Nat) String :=
  if pyFalsy project_id || pyFalsy message then
    (active, Except.error ("Project ID and message required", 400))
  else
    match dictGet active (project_id.getD "") with
    | none => (active, Except.error ("Project not found", 404))
    | some project =>
      (dictSet active (project_id.getD "")
        (project.add_message "User" (message.getD "") now),
       Except.ok "Message received")

/-- The engine's published progress percentages, in order: each iteration of
the loop whose step state reports a non-empty `completed_steps` calls
`update_status` with exactly this percentage embedded in the
`"In progress - ...% complete"` status string (`app.py` lines 110–114). -/
def published_progress (sts : List StepState) : List ℤ :=
  (sts.filter (fun st => !st.completed_steps.isEmpty)).map
    (fun st => progressPercent st.completed_steps.length workflow_steps.length)

/-! ### Concrete inputs used by counterexamples and witnesses -/

/-- A freshly started project, exactly as `start_project` builds it. -/
def demo_project : ProjectState :=
  (ProjectState.init "pid-1" "Build a task tracker" 0).add_message
    "System" "Project initialized. Starting business analysis phase..." 0

/-- A bare initialized project. -/
def p0 : ProjectState := ProjectState.init "p" "r" 0

/-- `p0` after a first `add_artifact` call storing `"first"` under `"doc"`. -/
def p1 : ProjectState := p0.add_artifact "doc" "first" "document" "analyst" 0

/-- A step-state artifact batch that retries the name `"doc"` and introduces
`"other"`. -/
def demo_arts : List (String × StepArtifact) :=
  [("doc", ⟨"dup", "document", "designer"⟩), ("other", ⟨"x", "code", "dev"⟩)]

/-- A previously registered project (for the duplicate-registration claim). -/
def projA : ProjectState := ProjectState.init "p1" "old reqs" 0

/-- A project that has reached the terminal status `"completed"`. -/
def completed_proj : ProjectState :=
  ((ProjectState.init "p2" "r" 0).add_message "System" "done" 2).update_status
    "completed" 3

/-- A project with two logged messages, for the cursor claim. -/
def msg_proj : ProjectState :=
  ((ProjectState.init "pm" "r" 0).add_message "System" "m0" 0).add_message
    "Analyst" "m1" 1

/-- A step state reporting all seven phases completed and nothing else. -/
def st7 : StepState :=
  { current_agent := "project_manager"
    messages := []
    artifacts := []
    completed_steps := graphSteps }

/-- A step state reporting three completed phases. -/
def st3 : StepState :=
  { current_agent := "database_developer"
    messages := []
    artifacts := []
    completed_steps := ["business_analysis", "database_design",
      "database_implementation"] }

/-- A step state reporting one completed phase. -/
def st1 : StepState :=
  { current_agent := "business_analyst"
    messages := []
    artifacts := []
    completed_steps := ["business_analysis"] }

/-! ### Helper lemmas about the Python-dict model -/

theorem dictGet_dictSet_same {α : Type} (d : List (String × α)) (k : String)
    (v : α) : dictGet (dictSet d k v) k = some v := by
  induction d with
  | nil => simp [dictSet, dictGet, List.find?]
  | cons kv rest ih =>
    by_cases h : kv.1 = k
    · simp [dictSet, h, dictGet, List.find?]
    · simp only [dictSet, if_neg h]
      simpa [dictGet, List.find?, h] using ih

theorem dictGet_dictSet_ne {α : Type} (d : List (String × α)) (k k' : String)
    (v : α) (h : k' ≠ k) : dictGet (dictSet d k v) k' = dictGet d k' := by
  induction d with
  | nil => simp [dictSet, dictGet, List.find?, Ne.symm h]
  | cons kv rest ih =>
    by_cases hk : kv.1 = k
    · have hne : kv.1 ≠ k' := by rw [hk]; exact Ne.symm h
      simp [dictSet, hk, dictGet, List.find?, Ne.symm h, hne]
    · by_cases hk' : kv.1 = k'
      · simp [dictSet, dictGet, List.find?, hk, hk', h]
      · simp only [dictSet, if_neg hk]
        simpa [dictGet, List.find?, hk'] using ih

theorem dictContains_eq_isSome {α : Type} (d : List (String × α))
    (k : String) : dictContains d k = (dictGet d k).isSome := by
  induction d with
  | nil => simp [dictContains, dictGet, List.find?]
  | cons kv rest ih =>
    by_cases h : kv.1 = k
    · simp [dictContains, dictGet, List.find?, h]
    · simpa [dictContains, dictGet, List.find?, h] using ih

theorem dictContains_dictSet_of {α : Type} (d : List (String × α))
    (k k' : String) (v : α) (h : dictContains d k' = true) (hne : k' ≠ k) :
    dictContains (dictSet d k v) k' = true := by
  rw [dictContains_eq_isSome] at h ⊢
  rw [dictGet_dictSet_ne d k k' v hne]
  exact h

/-- The artifact-merging loop never touches a name that is already present:
once stored, an artifact's entry survives every later merge unchanged. -/
theorem merge_artifacts_keeps_existing (now : Nat)
    (arts : List (String × StepArtifact)) :
    ∀ (p : ProjectState) (name : String),
      dictContains p.artifacts name = true →
      dictGet (merge_artifacts p arts now).artifacts name
        = dictGet p.artifacts name := by
  induction arts with
  | nil => intro p name _; simp [merge_artifacts]
  | cons a rest ih =>
    intro p name hmem
    by_cases hc : dictContains p.artifacts a.1 = true
    · have hstep : merge_artifacts p (a :: rest) now
          = merge_artifacts p rest now := by
        simp [merge_artifacts, hc]
      rw [hstep]
      exact ih p name hmem
    · have hne : name ≠ a.1 := by
        intro he
        rw [← he] at hc
        exact hc hmem
      have hstep : merge_artifacts p (a :: rest) now
          = merge_artifacts
              (p.add_artifact a.1 a.2.content a.2.type a.2.created_by now)
              rest now := by
        simp [merge_artifacts, hc]
      rw [hstep]
      have hmem' : dictContains
          (p.add_artifact a.1 a.2.content a.2.type a.2.created_by now).artifacts
          name = true := by
        simpa [ProjectState.add_artifact] using
          dictContains_dictSet_of p.artifacts a.1 name _ hmem hne
      rw [ih _ name hmem']
      simp [ProjectState.add_artifact,
        dictGet_dictSet_ne p.artifacts a.1 name _ hne]

/-! ### The progress formula -/

/-- With exact arithmetic, `int((k / 7) * 100)` is the natural-number
division `(100 * k) / 7`, i.e. `⌊100·k/7⌋`. -/
theorem progressPercent_eq_nat_div (k : ℕ) :
    progressPercent k 7 = ((100 * k) / 7 : ℕ) := by
  unfold progressPercent pyInt
  rw [if_pos (by positivity)]
  rw [← Int.natCast_floor_eq_floor (by positivity)]
  rw [show ((k : ℚ) / ((7 : ℕ) : ℚ) * 100) = (((100 * k : ℕ)) : ℚ) / ((7 : ℕ) : ℚ) by
    push_cast; ring]
  rw [Nat.floor_div_eq_div]

theorem progressPercent_mono {k k' : ℕ} (h : k ≤ k') :
    progressPercent k 7 ≤ progressPercent k' 7 := by
  unfold progressPercent pyInt
  rw [if_pos (by positivity), if_pos (by positivity)]
  apply Int.floor_le_floor
  gcongr

/-! ### Claim theorems -/

/-- C1 (code_bug evidence): `run_workflow` itself executes every stage
successfully — it returns with all seven phases completed and an empty error
list — yet `run_project_workflow` ends the project in status `"error"` with
no completion timestamp, because `app.py` iterates over the non-iterable
`WorkflowState` that `run_workflow` returns.  The claim's promised outcome
(`status = "completed"` with `completed_at` set) is never reached. -/
theorem run_project_workflow_always_errors :
    (run_workflow "pid-1" "Build a task tracker").errors = []
    ∧ (run_workflow "pid-1" "Build a task tracker").completed_phases
        = graphSteps
    ∧ (run_project_workflow demo_project 1).status = "error"
    ∧ (run_project_workflow demo_project 1).completed_at = none
    ∧ (run_project_workflow demo_project 1).messages
        = demo_project.messages
          ++ [⟨"System", "Error: 'WorkflowState' object is not iterable", 1⟩] :=
  ⟨rfl, rfl, rfl, rfl, rfl⟩

/-- C2 (counterexample): `ProjectState.add_artifact` is a bare dict
assignment: the second call with the same name is NOT a no-op — it replaces
the stored content, so the artifact read back afterwards carries the second
call's content `"second"`, not the first call's `"first"`. -/
theorem add_artifact_overwrites_cex :
    dictGet ((p1.add_artifact "doc" "second" "document" "designer" 1).artifacts)
        "doc" = some ⟨"second", "document", "designer", 1⟩
    ∧ dictGet p1.artifacts "doc" = some ⟨"first", "document", "analyst", 0⟩
    ∧ ("second" : String) ≠ "first" :=
  ⟨rfl, rfl, by decide⟩

/-- C2 (amended): first-writer-wins holds, but it is enforced by the
workflow's merging loop (`if name not in project.artifacts`), not by
`add_artifact`: the merge leaves any already-present name's entry unchanged,
while a direct `add_artifact` call stores its arguments unconditionally
(returning no boolean). -/
theorem first_writer_wins_via_merge (p : ProjectState)
    (arts : List (String × StepArtifact)) (now : Nat)
    (name content artifact_type agent : String)
    (h : dictContains p.artifacts name = true) :
    dictGet (merge_artifacts p arts now).artifacts name
        = dictGet p.artifacts name
    ∧ dictGet (p.add_artifact name content artifact_type agent now).artifacts
        name = some ⟨content, artifact_type, agent, now⟩ :=
  ⟨merge_artifacts_keeps_existing now arts p name h,
   by simp [ProjectState.add_artifact, dictGet_dictSet_same]⟩

/-- Witness for `first_writer_wins_via_merge` at a concrete project already
holding `"doc"` and a batch retrying `"doc"`. -/
theorem first_writer_wins_via_merge_witness :
    dictContains p1.artifacts "doc" = true
    ∧ dictGet (merge_artifacts p1 demo_arts 5).artifacts "doc"
        = dictGet p1.artifacts "doc" :=
  ⟨rfl, (first_writer_wins_via_merge p1 demo_arts 5 "doc" "c" "t" "a" rfl).1⟩

/-- C5 (counterexample): on the failing run, the handler of
`run_project_workflow` sets the status to the literal `"error"`, not to the
spec's terminal value `"errored"`. -/
theorem error_status_not_errored_cex :
    (run_project_workflow demo_project 1).status = "error"
    ∧ (run_project_workflow demo_project 1).status ≠ "errored" :=
  ⟨rfl, by decide⟩

/-- C5 (amended): for every project and failure description, the `except`
handler appends exactly one system message containing the description, sets
the status to the terminal string `"error"` (the source's spelling of the
spec's `errored`), touches no artifact, and is precisely what
`run_project_workflow` runs after the `try` block fails — the handler is a
total function, so no exception escapes the background thread, and no stage
processing follows it. -/
theorem workflow_error_handler_spec (p : ProjectState) (e : String)
    (now : Nat) :
    (workflow_error_handler p e now).messages
        = p.messages ++ [⟨"System", "Error: " ++ e, now⟩]
    ∧ (workflow_error_handler p e now).status = "error"
    ∧ (workflow_error_handler p e now).artifacts = p.artifacts
    ∧ (workflow_error_handler p e now).completed_at = p.completed_at
    ∧ (∀ q : ProjectState, run_project_workflow q now
        = workflow_error_handler (q.update_status "running" now)
            "'WorkflowState' object is not iterable" now) := by
  refine ⟨?_, rfl, rfl, ?_, fun q => rfl⟩
  · simp [workflow_error_handler, ProjectState.add_message,
      ProjectState.update_status]
  · simp [workflow_error_handler, ProjectState.add_message,
      ProjectState.update_status]

/-- C3: for a registered project and any cursor `c ≤ message_count`, the
message endpoint answers with exactly the messages at positions
`[c, message_count)` in order, empty when `c` already equals the count,
with `new_cursor = c + (number returned) = message_count`; re-polling at the
returned cursor on an unchanged log returns nothing, so an advancing reader
never sees a message twice. -/
theorem project_messages_cursor_spec (active : Registry) (pid : String)
    (p : ProjectState) (c : Nat) (hget : dictGet active pid = some p)
    (hc : c ≤ p.messages.length) :
    ∃ msgs newc, project_messages active pid c = Except.ok (msgs, newc)
      ∧ msgs = p.messages.drop c
      ∧ (∀ i (h1 : i < msgs.length) (h2 : c + i < p.messages.length),
          msgs.get ⟨i, h1⟩ = p.messages.get ⟨c + i, h2⟩)
      ∧ (p.messages.length ≤ c → msgs = [])
      ∧ newc = c + msgs.length
      ∧ newc = p.messages.length
      ∧ project_messages active pid newc = Except.ok ([], newc) := by
  refine ⟨p.messages.drop c, c + (p.messages.drop c).length, ?_, rfl, ?_, ?_,
    rfl, ?_, ?_⟩
  · simp [project_messages, hget]
  · intro i h1 h2
    simp [List.getElem_drop]
  · intro hle
    have : c = p.messages.length := le_antisymm hc hle
    simp [this]
  · simp [List.length_drop]
    omega
  · have hlen : c + (p.messages.drop c).length = p.messages.length := by
      simp [List.length_drop]
      omega
    rw [hlen]
    simp [project_messages, hget]

/-- Witness for `project_messages_cursor_spec`: the two-message project
`msg_proj` read from cursor 1. -/
theorem project_messages_cursor_spec_witness :
    dictGet [("pm", msg_proj)] "pm" = some msg_proj
    ∧ 1 ≤ msg_proj.messages.length
    ∧ ∃ msgs newc,
        project_messages [("pm", msg_proj)] "pm" 1 = Except.ok (msgs, newc)
        ∧ msgs = msg_proj.messages.drop 1
        ∧ (∀ i (h1 : i < msgs.length)
            (h2 : 1 + i < msg_proj.messages.length),
            msgs.get ⟨i, h1⟩ = msg_proj.messages.get ⟨1 + i, h2⟩)
        ∧ (msg_proj.messages.length ≤ 1 → msgs = [])
        ∧ newc = 1 + msgs.length
        ∧ newc = msg_proj.messages.length
        ∧ project_messages [("pm", msg_proj)] "pm" newc
            = Except.ok ([], newc) :=
  ⟨rfl, by decide,
   project_messages_cursor_spec [("pm", msg_proj)] "pm" msg_proj 1 rfl
     (by decide)⟩

/-- C4 (counterexample): `completed_proj` is terminal (`"completed"`), yet
`send_message` appends the user message to its log — the log is NOT left
unchanged for terminal projects. -/
theorem send_message_appends_after_completed_cex :
    completed_proj.status = "completed"
    ∧ dictGet (send_message [("p2", completed_proj)] (some "p2") (some "hi")
        9).1 "p2" = some (completed_proj.add_message "User" "hi" 9)
    ∧ (completed_proj.add_message "User" "hi" 9).messages
        ≠ completed_proj.messages :=
  ⟨rfl, rfl, by decide⟩

/-- C4 (amended): no stage runs after a terminal status — in the source the
engine sets a terminal status only as the final action of
`run_project_workflow` (see `workflow_error_handler_spec`) — but the
message-posting endpoint checks only existence, never status: for every
registered project, terminal or not, it appends exactly the user's message
and leaves status, artifacts, `completed_at` and the rest of the pipeline
state untouched. -/
theorem send_message_appends_regardless_of_status (active : Registry)
    (pid msg : String) (p : ProjectState) (now : Nat)
    (hget : dictGet active pid = some p) (hpid : pid ≠ "") (hmsg : msg ≠ "") :
    (send_message active (some pid) (some msg) now).1
        = dictSet active pid (p.add_message "User" msg now)
    ∧ (send_message active (some pid) (some msg) now).2
        = Except.ok "Message received"
    ∧ (p.add_message "User" msg now).messages
        = p.messages ++ [⟨"User", msg, now⟩]
    ∧ (p.add_message "User" msg now).status = p.status
    ∧ (p.add_message "User" msg now).artifacts = p.artifacts
    ∧ (p.add_message "User" msg now).completed_at = p.completed_at
    ∧ (p.add_message "User" msg now).current_agent = p.current_agent
    ∧ (p.add_message "User" msg now).result = p.result := by
  have hfp : pyFalsy (some pid) = false := by
    simp only [pyFalsy, Bool.eq_false_iff, ne_eq, String.isEmpty_iff]
    exact hpid
  have hfm : pyFalsy (some msg) = false := by
    simp only [pyFalsy, Bool.eq_false_iff, ne_eq, String.isEmpty_iff]
    exact hmsg
  refine ⟨?_, ?_, rfl, rfl, rfl, rfl, rfl, rfl⟩
  · simp [send_message, hfp, hfm, hget]
  · simp [send_message, hfp, hfm, hget]

/-- Witness for `send_message_appends_regardless_of_status` at the terminal
project `completed_proj`. -/
theorem send_message_appends_regardless_of_status_witness :
    dictGet [("p2", completed_proj)] "p2" = some completed_proj
    ∧ (send_message [("p2", completed_proj)] (some "p2") (some "hi") 9).1
        = dictSet [("p2", completed_proj)] "p2"
            (completed_proj.add_message "User" "hi" 9) :=
  ⟨rfl, (send_message_appends_regardless_of_status [("p2", completed_proj)]
    "p2" "hi" completed_proj 9 rfl (by decide) (by decide)).1⟩

/-- C6 (counterexample): processing a step that reports all seven phases
completed publishes progress 100 — the status becomes the literal
`"In progress - 100% complete"` — while the status is not `"completed"` and
no completion timestamp is set; `"completed"` is only assigned later, outside
the loop.  So the engine does expose 100% together with a non-completed
status. -/
theorem progress_100_with_noncompleted_status_cex :
    processStep p0 st7 4
      = { project_id := "p", requirements := "r",
          current_agent := some "project_manager",
          status := "In progress - 100% complete", started_at := 0,
          completed_at := none, messages := [], artifacts := [],
          result := none }
    ∧ ("In progress - 100% complete" : String) ≠ "completed"
    ∧ progressPercent st7.completed_steps.length workflow_steps.length
        = 100 := by
  have h100 : progressPercent graphSteps.length workflow_steps.length
      = 100 := by
    show progressPercent 7 7 = 100
    rw [progressPercent_eq_nat_div]
    rfl
  refine ⟨?_, by decide, h100⟩
  simp [processStep, st7, p0, merge_artifacts, ProjectState.update_status,
    ProjectState.init, h100]
  rfl

/-- C6 (amended): the percentages the loop publishes are monotonically
non-decreasing whenever the `completed_steps` counts of the yielded states
are non-decreasing (they are append-only in the intended stream). -/
theorem published_progress_monotone (sts : List StepState)
    (h : sts.Pairwise
      (fun a b => a.completed_steps.length ≤ b.completed_steps.length)) :
    (published_progress sts).Pairwise (· ≤ ·) := by
  unfold published_progress
  exact (h.filter _).map _ (fun a b hab => progressPercent_mono hab)

/-- Witness for `published_progress_monotone` on a concrete growing stream. -/
theorem published_progress_monotone_witness :
    [st1, st3, st7].Pairwise
      (fun a b => a.completed_steps.length ≤ b.completed_steps.length)
    ∧ (published_progress [st1, st3, st7]).Pairwise (· ≤ ·) :=
  ⟨by decide, published_progress_monotone [st1, st3, st7] (by decide)⟩

/-- C7: after a step reporting `k` completed stages (`0 < k ≤ 7`), the loop
publishes exactly the status string embedding `⌊100·k/7⌋` — the natural
division `(100 * k) / 7` — which is `(k / len(workflow_steps)) * 100`
truncated to an integer. -/
theorem progress_formula_floor (p : ProjectState) (st : StepState)
    (now k : Nat) (hk : st.completed_steps.length = k) (h0 : 0 < k)
    (_h7 : k ≤ 7) :
    (processStep p st now).status
      = "In progress - " ++ toString (((100 * k) / 7 : ℕ) : ℤ)
        ++ "% complete"
    ∧ progressPercent k workflow_steps.length = (((100 * k) / 7 : ℕ) : ℤ) := by
  have hws : workflow_steps.length = 7 := rfl
  have hpp : progressPercent k workflow_steps.length
      = (((100 * k) / 7 : ℕ) : ℤ) := by
    rw [hws, progressPercent_eq_nat_div]
  refine ⟨?_, hpp⟩
  simp only [processStep]
  rw [if_pos (by rw [hk]; exact h0)]
  simp [ProjectState.update_status, hk, hpp]

/-- Witness for `progress_formula_floor` at `k = 3` completed stages. -/
theorem progress_formula_floor_witness :
    st3.completed_steps.length = 3 ∧ 0 < 3 ∧ 3 ≤ 7
    ∧ (processStep p0 st3 2).status
        = "In progress - " ++ toString (((100 * 3) / 7 : ℕ) : ℤ)
          ++ "% complete" :=
  ⟨rfl, by decide, by decide,
   (progress_formula_floor p0 st3 2 3 rfl (by decide) (by decide)).1⟩

/-- C8 (counterexample): `start_project` performs no duplicate check.  With
`"p1"` already registered, registering again under `"p1"` raises no error —
the response is the success payload — and the previously registered state
`projA` is overwritten by the new project. -/
theorem register_overwrites_existing_cex :
    (start_project [("p1", projA)] (some "new reqs") "p1" 5).response
        = Except.ok "p1"
    ∧ dictGet (start_project [("p1", projA)] (some "new reqs") "p1"
        5).active_projects "p1" ≠ some projA :=
  ⟨rfl, by decide⟩

/-- C8 (amended): for any non-falsy requirements, registration is an
unconditional dict assignment: it succeeds and stores the freshly built
project under the identifier, overwriting whatever was there; no
`DuplicateProjectError` exists in the code (identifiers are freshly generated
UUIDs, so duplicates are simply not checked). -/
theorem start_project_registers_unconditionally (active : Registry)
    (req : Option String) (project_id : String) (now : Nat)
    (h : pyFalsy req = false) :
    (start_project active req project_id now).response = Except.ok project_id
    ∧ dictGet (start_project active req project_id now).active_projects
        project_id
      = some ((ProjectState.init project_id (req.getD "") now).add_message
          "System" "Project initialized. Starting business analysis phase..."
          now) := by
  constructor
  · simp [start_project, h]
  · simp [start_project, h, dictGet_dictSet_same]

/-- Witness for `start_project_registers_unconditionally` on a registry that
already holds the identifier. -/
theorem start_project_registers_unconditionally_witness :
    pyFalsy (some "new reqs") = false
    ∧ (start_project [("p1", projA)] (some "new reqs") "p1" 5).response
        = Except.ok "p1" :=
  ⟨rfl, (start_project_registers_unconditionally [("p1", projA)]
    (some "new reqs") "p1" 5 rfl).1⟩

/-- C10: when the requirements are absent or empty (Python-falsy), the
endpoint answers the 400 error, registers nothing and starts no background
thread; conversely a project id is only ever returned for a present,
non-empty requirements string. -/
theorem start_project_requires_requirements (active : Registry)
    (req : Option String) (project_id : String) (now : Nat) :
    (pyFalsy req = true →
      (start_project active req project_id now).active_projects = active
      ∧ (start_project active req project_id now).response
          = Except.error ("No requirements provided", 400)
      ∧ (start_project active req project_id now).thread_started = false)
    ∧ (∀ pid, (start_project active req project_id now).response
          = Except.ok pid → ∃ s, req = some s ∧ s ≠ "") := by
  constructor
  · intro h
    refine ⟨?_, ?_, ?_⟩ <;> simp [start_project, h]
  · intro pid hok
    by_cases h : pyFalsy req = true
    · rw [start_project] at hok
      simp [h] at hok
    · cases req with
      | none => exact absurd rfl h
      | some s =>
        refine ⟨s, rfl, ?_⟩
        intro he
        subst he
        exact h rfl

/-- Witness for `start_project_requires_requirements`: absent requirements
leave the registry empty, answer the 400 error and start no thread. -/
theorem start_project_requires_requirements_witness :
    (start_project [] none "fresh-id" 0).active_projects = ([] : Registry)
    ∧ (start_project [] none "fresh-id" 0).response
        = Except.error ("No requirements provided", 400)
    ∧ (start_project [] none "fresh-id" 0).thread_started = false :=
  (start_project_requires_requirements [] none "fresh-id" 0).1 rfl
